import Mathlib

/-!
Formal model of the Prophet MCP server.

The repository has two source files:
  * `mcp_helper.py` — JSON-RPC method router (`handle_request`), the
    `initialize` / `tools/list` handlers, the tool-call handler
    (`handle_tool_call`) and the forecast adapter (`forecast_time_series`).
  * `app.py` — the Flask transport layer (`mcp_endpoint`): JSON parsing,
    bearer-token auth, notification short-circuiting and envelope shaping.

The embedding below translates these functions directly.  External
collaborators (the Prophet statistical model, `json.loads` on string
arguments, the `MCP_TOKEN` environment variable) are parameters of an
`Env` record: every theorem is quantified over them, and witnesses
instantiate them concretely.  Python exceptions are modelled with
`Except String`, carrying `str(e)`.
-/

/-- JSON values, the shape of the Python dicts the server builds. -/
inductive Json where
  | null
  | bool (b : Bool)
  | int (n : Int)
  | rat (q : Rat)
  | str (s : String)
  | arr (xs : List Json)
  | obj (fields : List (String × Json))

/-- Field lookup in a JSON object; `none` on non-objects or missing keys. -/
def Json.lookup (j : Json) (k : String) : Option Json :=
  match j with
  | .obj fields => List.lookup k fields
  | _ => none

/-- Python `str(x)` on an optional string: `None` prints as `"None"`.
Used where the source interpolates a value that may be `None` into an
f-string (`f"Method not found: {method}"`, `f"Tool not found: {tool_name}"`). -/
def pyStr : Option String → String
  | some s => s
  | none => "None"

/-- Auxiliary for `splitOnChar`: walks the character list accumulating the
current segment (reversed). -/
def splitOnCharAux (sep : Char) : List Char → List Char → List String
  | [], acc => [String.mk acc.reverse]
  | c :: cs, acc =>
      if c = sep then String.mk acc.reverse :: splitOnCharAux sep cs []
      else splitOnCharAux sep cs (c :: acc)

/-- Python `s.split(sep)` for a single-character separator: splits at every
occurrence, keeping empty segments (`"Bearer ".split(' ') == ["Bearer", ""]`). -/
def splitOnChar (sep : Char) (s : String) : List String :=
  splitOnCharAux sep s.data []

/-- Python `s.split(' ')`, as used on the Authorization header in `app.py`. -/
def pySplitSpace (s : String) : List String :=
  splitOnChar ' ' s

/-- Python `s.startswith(pre)`. -/
def pyStartsWith (s pre : String) : Bool :=
  pre.data.isPrefixOf s.data

/-- The token the auth check compares, `auth_header.split(' ')[1]` in
`app.py`.  The index is always in range when this is reached, because the
header is known to start with `"Bearer "`, so the split has at least two
segments; the default `""` is never used on the reachable path. -/
def extractToken (h : String) : String :=
  (pySplitSpace h).getD 1 ""

/-- Calendar date at midnight.  `pd.to_datetime` applied to ISO `YYYY-MM-DD`
strings (the tool's declared input format) yields date-resolution
timestamps whose time part is 00:00:00. -/
structure Timestamp where
  year : Nat
  month : Nat
  day : Nat
deriving DecidableEq

/-- Chronological order on dates (lexicographic on year, month, day). -/
def tsLe (a b : Timestamp) : Bool :=
  decide (a.year < b.year ∨ (a.year = b.year ∧
    (a.month < b.month ∨ (a.month = b.month ∧ a.day ≤ b.day))))

/-- Numeric value of a digit string. -/
def digitsVal (cs : List Char) : Nat :=
  cs.foldl (fun a c => a * 10 + (c.toNat - 48)) 0

/-- Parse a non-empty all-digit character list as a number. -/
def natOfChars? (cs : List Char) : Option Nat :=
  if cs ≠ [] ∧ cs.all Char.isDigit then some (digitsVal cs) else none

/-- Modelled from `pd.to_datetime` on a single entry, restricted to the ISO
`YYYY-MM-DD` date strings the tool schema declares: three dash-separated
numeric components with a plausible month and day.  Anything else is
unparseable and makes `pd.to_datetime` raise.  (pandas accepts further
formats; the claims only use ISO strings and the existence of unparseable
strings, both of which this restriction models faithfully.) -/
def parseDate (s : String) : Option Timestamp :=
  match splitOnChar '-' s with
  | [ys, ms, ds] =>
    match natOfChars? ys.data, natOfChars? ms.data, natOfChars? ds.data with
    | some y, some m, some d =>
        if 1 ≤ m ∧ m ≤ 12 ∧ 1 ≤ d ∧ d ≤ 31 then some ⟨y, m, d⟩ else none
    | _, _, _ => none
  | _ => none

/-- Modelled from `df["ds"] = pd.to_datetime(df["ds"])` in
`forecast_time_series`: converts the whole column, raising (`.error`) on
the first unparseable entry.  This happens OUTSIDE the try/except block of
the source. -/
def parseDates : List String → Except String (List Timestamp)
  | [] => .ok []
  | s :: rest =>
    match parseDate s with
    | none => .error ("Unknown datetime string format, unable to parse: " ++ s)
    | some t => (parseDates rest).map (fun ts => t :: ts)

/-- Zero-padded two-digit field of `strftime`. -/
def pad2 (n : Nat) : String :=
  if n < 10 then "0" ++ Nat.repr n else Nat.repr n

/-- Zero-padded four-digit year field of `strftime`. -/
def pad4 (n : Nat) : String :=
  if n < 10 then "000" ++ Nat.repr n
  else if n < 100 then "00" ++ Nat.repr n
  else if n < 1000 then "0" ++ Nat.repr n
  else Nat.repr n

/-- Python `dt.strftime("%Y-%m-%dT%H:%M:%S")` on a date-resolution
timestamp: the time part is midnight. -/
def fmtTimestamp (t : Timestamp) : String :=
  pad4 t.year ++ "-" ++ pad2 t.month ++ "-" ++ pad2 t.day ++ "T00:00:00"

/-- Pandas `Series.min()` seeded at `t` over `ts`. -/
def tsMinFold (t : Timestamp) (ts : List Timestamp) : Timestamp :=
  ts.foldl (fun a b => if tsLe b a then b else a) t

/-- Pandas `Series.max()` seeded at `t` over `ts`. -/
def tsMaxFold (t : Timestamp) (ts : List Timestamp) : Timestamp :=
  ts.foldl (fun a b => if tsLe a b then b else a) t

/-- The `df["ds"].min()` of `forecast_time_series`.  Only ever applied to a
non-empty column in the source (reaching it requires a successful Prophet
fit); the `[]` default is unreachable there. -/
def minTimestamp : List Timestamp → Timestamp
  | [] => ⟨0, 1, 1⟩
  | t :: ts => tsMinFold t ts

/-- The `df["ds"].max()` of `forecast_time_series`. -/
def maxTimestamp : List Timestamp → Timestamp
  | [] => ⟨0, 1, 1⟩
  | t :: ts => tsMaxFold t ts

/-- The `arguments` dict of a forecast tool call, restricted to the keys
`forecast_time_series` reads with `.get`: absent keys read as `none`. -/
structure ForecastArgs where
  ds : Option (List String)
  y : Option (List Rat)
  periods : Option Int
deriving DecidableEq

/-- The external Prophet model, an opaque collaborator per the design:
`fit` either raises (`some` message, caught by the source's try/except) or
succeeds; `futureFrame` is `make_future_dataframe` (history plus future
rows at the inferred cadence); `predict` gives `yhat` and the uncertainty
band for a row. -/
structure ProphetOracle where
  fit : List Timestamp → List Rat → Option String
  futureFrame : List Timestamp → Int → List Timestamp
  predict : Timestamp → Rat × Rat × Rat

/-- Process environment and external library behaviour the server code
calls into: `os.getenv('MCP_TOKEN')`, `json.loads` on string tool
arguments (`none` models a raised decode error or a non-object), and the
Prophet library. -/
structure Env where
  mcpToken : Option String
  jsonLoads : String → Option ForecastArgs
  prophet : ProphetOracle

/-- One row of the `forecast` output list:
`{ds, yhat, yhat_lower, yhat_upper}` with `ds` strftime-formatted. -/
def forecastRow (p : ProphetOracle) (t : Timestamp) : Json :=
  Json.obj [("ds", .str (fmtTimestamp t)),
            ("yhat", .rat (p.predict t).1),
            ("yhat_lower", .rat (p.predict t).2.1),
            ("yhat_upper", .rat (p.predict t).2.2)]

/-- The forecast adapter `forecast_time_series(arguments)` of
`mcp_helper.py`.  Steps in source order: read `ds`/`y`/`periods` (default
10); build the DataFrame (raises if `ds`/`y` are missing or of different
lengths — pandas-level failures outside any claim's scope, modelled as a
raised exception); convert `ds` with `pd.to_datetime` (raises on
unparseable input, BEFORE the try block); inside try/except fit and
predict, returning an `{"error": str(e)}` payload as ordinary output on
failure; on success build the meta/forecast dict.  Note the meta dict's
first key is `"f"`, exactly as in the source. -/
def forecast_time_series (env : Env) (arguments : ForecastArgs) : Except String Json :=
  match arguments.ds, arguments.y with
  | some ds, some y =>
    let f : Int := arguments.periods.getD 10
    if ds.length ≠ y.length then
      .error "All arrays must be of the same length"
    else
      match parseDates ds with
      | .error e => .error e
      | .ok dates =>
        match env.prophet.fit dates y with
        | some e => .ok (Json.obj [("error", .str e)])
        | none =>
          let future := env.prophet.futureFrame dates f
          .ok (Json.obj [
            ("meta", Json.obj [
              ("f", .int f),
              ("n_history", .int (dates.length : Int)),
              ("start", .str (fmtTimestamp (minTimestamp dates))),
              ("end", .str (fmtTimestamp (maxTimestamp dates)))]),
            ("forecast", Json.arr (future.map (forecastRow env.prophet)))])
  | _, _ => .error "DataFrame constructor not properly called"

/-- The `"text"` field of a tool-result content item: either a plain
message string or `json.dumps` of a JSON value (the serialized forecast
output). -/
inductive ToolText where
  | plain (s : String)
  | jsonDump (j : Json)

/-- A tool result `{isError?, content:[{type:"text", text}]}` — the
`isError` key is absent (`none`) on the success path, exactly as in the
source dict literals. -/
structure ToolResult where
  isError : Option Bool
  content : List ToolText

/-- The `arguments` value of a tool-call params dict: either an object or
a raw JSON string to be decoded. -/
inductive ArgsValue where
  | obj (a : ForecastArgs)
  | str (s : String)
deriving DecidableEq

/-- The `params` dict, restricted to the keys the handlers read
(`params.get("name")`, `params.get("arguments", {})`). -/
structure ToolCallParams where
  name : Option String
  arguments : Option ArgsValue
deriving DecidableEq

/-- The fixed descriptor returned by `handle_initialize()`. -/
def handle_initialize : Json :=
  Json.obj [
    ("protocolVersion", .str "2024-11-05"),
    ("serverInfo", .obj [("name", .str "prophet_mcp"), ("version", .str "0.1.0")]),
    ("capabilities", .obj [("tools", .obj [])])]

/-- The static registry returned by `handle_tools_list()`. -/
def handle_tools_list : Json :=
  Json.obj [
    ("tools", .arr [
      Json.obj [
        ("name", .str "forecast_time_series"),
        ("description", .str "Runs a simple Prophet forecast on ds/y and returns ds + yhat/yhat_lower/yhat_upper."),
        ("annotations", .obj [("read_only", .bool false)]),
        ("inputSchema", .obj [
          ("type", .str "object"),
          ("properties", .obj [
            ("ds", .obj [
              ("type", .str "array"),
              ("items", .obj [("type", .str "string")]),
              ("description", .str "List of dates in ISO format (e.g., YYYY-MM-DD).")]),
            ("y", .obj [
              ("type", .str "array"),
              ("items", .obj [("type", .str "number")]),
              ("description", .str "List of numeric values aligned with ds.")]),
            ("periods", .obj [
              ("type", .str "integer"),
              ("description", .str "Number of future periods to forecast."),
              ("default", .int 10)])]),
          ("required", .arr [.str "ds", .str "y"]),
          ("additionalProperties", .bool false)])]])]

/-- The tool-call handler `handle_tool_call(params)` of `mcp_helper.py`:
read `name` and `arguments` (default `{}`); if `arguments` is a string,
`json.loads` it, answering an `isError` result on decode failure; then
dispatch on the tool name, wrapping forecast output as
`{"content":[{"type":"text","text": json.dumps(data)}]}` and answering the
`Tool not found` result for anything else.  Exceptions raised by the
forecast adapter propagate. -/
def handle_tool_call (env : Env) (params : ToolCallParams) : Except String ToolResult :=
  let tool_name := params.name
  let argsV := params.arguments.getD (ArgsValue.obj ⟨none, none, none⟩)
  let decoded : Except ToolResult ForecastArgs :=
    match argsV with
    | .str s =>
      match env.jsonLoads s with
      | some a => .ok a
      | none => .error ⟨some true,
          [.plain "Invalid arguments: expected object or JSON string."]⟩
    | .obj a => .ok a
  match decoded with
  | .error r => .ok r
  | .ok arguments =>
    if tool_name == some "forecast_time_series" then
      (forecast_time_series env arguments).map (fun data => ⟨none, [.jsonDump data]⟩)
    else
      .ok ⟨some true, [.plain ("Tool not found: " ++ pyStr tool_name)]⟩

/-- A result value as produced by the three handlers: a plain dict
(`initialize`, `tools/list`) or a tool result (`tools/call`). -/
inductive RpcResult where
  | json (j : Json)
  | tool (r : ToolResult)

/-- The method router `handle_request(method, params)` of `mcp_helper.py`.
Unknown methods raise `ValueError(f"Method not found: {method}")`. -/
def handle_request (env : Env) (method : Option String) (params : ToolCallParams) :
    Except String RpcResult :=
  if method == some "initialize" then .ok (.json handle_initialize)
  else if method == some "tools/list" then .ok (.json handle_tools_list)
  else if method == some "tools/call" then (handle_tool_call env params).map RpcResult.tool
  else .error ("Method not found: " ++ pyStr method)

/-- JSON-RPC request id: string or number (absent/null is `none` of the
surrounding `Option`, both read as Python `None` by `data.get("id")`). -/
inductive RpcId where
  | str (s : String)
  | num (n : Int)
deriving DecidableEq

/-- The parsed request body, restricted to the fields `mcp_endpoint`
reads: `data.get("method")`, `data.get("params", {})`, `data.get("id")`. -/
structure McpRequest where
  method : Option String
  params : ToolCallParams
  id : Option RpcId
deriving DecidableEq

/-- The body of a response envelope: exactly one of `result` / `error`,
which is how every `jsonify` literal in `app.py` is shaped. -/
inductive RespBody where
  | result (r : RpcResult)
  | error (code : Int) (message : String)

/-- A JSON-RPC response envelope `{jsonrpc:"2.0", result|error, id}`. -/
structure Envelope where
  body : RespBody
  id : Option RpcId

/-- What the Flask handler returns: a JSON-RPC envelope with an HTTP
status, or bare `("", 204)`. -/
inductive HttpResponse where
  | envelope (status : Nat) (e : Envelope)
  | noContent

/-- An inbound HTTP request as `mcp_endpoint` sees it: the Authorization
header (if any) and the JSON body, `.error detail` when
`request.get_json(force=True)` raises. -/
structure HttpRequest where
  authHeader : Option String
  body : Except String McpRequest

/-- Python `method == "notifications/initialized" or (isinstance(method, str)
and method.startswith("notifications/"))` — the recognized-notification
test of `app.py` (both branches of the surrounding `if` return 204). -/
def isNotificationMethod (m : Option String) : Bool :=
  m == some "notifications/initialized" ||
    (match m with
     | some s => pyStartsWith s "notifications/"
     | none => false)

/-- The part of `mcp_endpoint` after a passed auth check: the notification
short-circuit (both its branches return `("", 204)`), then dispatch through
`handle_request` inside try/except, wrapping success as a `result` envelope
and exceptions as an `Internal tool error` tool result for `tools/call` or
a protocol-level `-32603` error otherwise, all at HTTP 200. -/
def dispatch_stage (env : Env) (data : McpRequest) : HttpResponse :=
  match data.id with
  | none =>
    if isNotificationMethod data.method then .noContent else .noContent
  | some _ =>
    match handle_request env data.method data.params with
    | .ok r => .envelope 200 ⟨.result r, data.id⟩
    | .error e =>
      if data.method == some "tools/call" then
        .envelope 200 ⟨.result (.tool ⟨some true,
          [.plain ("Internal tool error: " ++ e)]⟩), data.id⟩
      else
        .envelope 200 ⟨.error (-32603) ("Internal error: " ++ e), data.id⟩

/-- The transport entry point `mcp_endpoint()` of `app.py`, in source
order: JSON parse (parse failure answers a `-32700` envelope with null id
at 200); read method/params/id; the auth check (`not auth_header or not
auth_header.startswith('Bearer ')` answers the missing-header 401, a token
mismatch the invalid-token 401, both carrying the request id); then the
post-auth stage. -/
def mcp_endpoint (env : Env) (req : HttpRequest) : HttpResponse :=
  match req.body with
  | .error e =>
    .envelope 200 ⟨.error (-32700) ("Parse error: " ++ e), none⟩
  | .ok data =>
    match req.authHeader with
    | none =>
      .envelope 401 ⟨.error (-32000)
        "Unauthorized: Missing or invalid Authorization header", data.id⟩
    | some h =>
      if h == "" || !(pyStartsWith h "Bearer ") then
        .envelope 401 ⟨.error (-32000)
          "Unauthorized: Missing or invalid Authorization header", data.id⟩
      else if some (extractToken h) ≠ env.mcpToken then
        .envelope 401 ⟨.error (-32000)
          "Unauthorized: Invalid MCP Auth token", data.id⟩
      else
        dispatch_stage env data

/-! ### Helper lemmas about the date order and the column operations -/

/-- Unfolding of the boolean date order into its arithmetic meaning. -/
theorem tsLe_iff {a b : Timestamp} :
    tsLe a b = true ↔
      (a.year < b.year ∨ (a.year = b.year ∧
        (a.month < b.month ∨ (a.month = b.month ∧ a.day ≤ b.day)))) :=
  decide_eq_true_iff

theorem tsLe_refl (a : Timestamp) : tsLe a a = true :=
  tsLe_iff.mpr (by omega)

theorem tsLe_trans {a b c : Timestamp} (h1 : tsLe a b = true) (h2 : tsLe b c = true) :
    tsLe a c = true := by
  rw [tsLe_iff] at h1 h2 ⊢
  omega

theorem tsLe_total (a b : Timestamp) : tsLe a b = true ∨ tsLe b a = true := by
  rw [tsLe_iff, tsLe_iff]
  omega

/-- The seeded fold behind `minTimestamp` returns an element of the seeded
list that is below the seed and every list element. -/
theorem tsMinFold_spec (ts : List Timestamp) (t : Timestamp) :
    (tsMinFold t ts = t ∨ tsMinFold t ts ∈ ts) ∧
    tsLe (tsMinFold t ts) t = true ∧
    ∀ u ∈ ts, tsLe (tsMinFold t ts) u = true := by
  induction ts generalizing t with
  | nil => exact ⟨Or.inl rfl, tsLe_refl t, by simp⟩
  | cons b ts ih =>
    have hfold : tsMinFold t (b :: ts) = tsMinFold (if tsLe b t then b else t) ts := rfl
    obtain ⟨hmem, hseed, hall⟩ := ih (if tsLe b t then b else t)
    have hle_t : tsLe (if tsLe b t then b else t) t = true := by
      by_cases hbt : tsLe b t = true
      · simp [hbt]
      · simp [hbt, tsLe_refl]
    have hle_b : tsLe (if tsLe b t then b else t) b = true := by
      by_cases hbt : tsLe b t = true
      · simp [hbt, tsLe_refl]
      · rcases tsLe_total b t with h | h
        · exact absurd h hbt
        · simp [hbt, h]
    refine ⟨?_, ?_, ?_⟩
    · rw [hfold]
      rcases hmem with h | h
      · rw [h]
        by_cases hbt : tsLe b t = true
        · simp [hbt]
        · simp [hbt]
      · exact Or.inr (List.mem_cons_of_mem b h)
    · rw [hfold]
      exact tsLe_trans hseed hle_t
    · intro u hu
      rw [hfold]
      rcases List.mem_cons.mp hu with h | h
      · rw [h]
        exact tsLe_trans hseed hle_b
      · exact hall u h

/-- The seeded fold behind `maxTimestamp` returns an element of the seeded
list that is above the seed and every list element. -/
theorem tsMaxFold_spec (ts : List Timestamp) (t : Timestamp) :
    (tsMaxFold t ts = t ∨ tsMaxFold t ts ∈ ts) ∧
    tsLe t (tsMaxFold t ts) = true ∧
    ∀ u ∈ ts, tsLe u (tsMaxFold t ts) = true := by
  induction ts generalizing t with
  | nil => exact ⟨Or.inl rfl, tsLe_refl t, by simp⟩
  | cons b ts ih =>
    have hfold : tsMaxFold t (b :: ts) = tsMaxFold (if tsLe t b then b else t) ts := rfl
    obtain ⟨hmem, hseed, hall⟩ := ih (if tsLe t b then b else t)
    have hge_t : tsLe t (if tsLe t b then b else t) = true := by
      by_cases htb : tsLe t b = true
      · simp [htb]
      · simp [htb, tsLe_refl]
    have hge_b : tsLe b (if tsLe t b then b else t) = true := by
      by_cases htb : tsLe t b = true
      · simp [htb, tsLe_refl]
      · rcases tsLe_total t b with h | h
        · exact absurd h htb
        · simp [htb, h]
    refine ⟨?_, ?_, ?_⟩
    · rw [hfold]
      rcases hmem with h | h
      · rw [h]
        by_cases htb : tsLe t b = true
        · simp [htb]
        · simp [htb]
      · exact Or.inr (List.mem_cons_of_mem b h)
    · rw [hfold]
      exact tsLe_trans hge_t hseed
    · intro u hu
      rw [hfold]
      rcases List.mem_cons.mp hu with h | h
      · rw [h]
        exact tsLe_trans hge_b hseed
      · exact hall u h

/-- On a non-empty column, `minTimestamp` is a genuine minimum: it is one of
the dates and is chronologically at or below every date. -/
theorem minTimestamp_spec (l : List Timestamp) (hne : l ≠ []) :
    minTimestamp l ∈ l ∧ ∀ u ∈ l, tsLe (minTimestamp l) u = true := by
  match l, hne with
  | t :: ts, _ =>
    obtain ⟨hmem, hseed, hall⟩ := tsMinFold_spec ts t
    refine ⟨?_, ?_⟩
    · rcases hmem with h | h
      · rw [minTimestamp, h]; exact List.mem_cons_self t ts
      · rw [minTimestamp]; exact List.mem_cons_of_mem t h
    · intro u hu
      rcases List.mem_cons.mp hu with h | h
      · rw [minTimestamp, h]; exact hseed
      · rw [minTimestamp]; exact hall u h

/-- On a non-empty column, `maxTimestamp` is a genuine maximum. -/
theorem maxTimestamp_spec (l : List Timestamp) (hne : l ≠ []) :
    maxTimestamp l ∈ l ∧ ∀ u ∈ l, tsLe u (maxTimestamp l) = true := by
  match l, hne with
  | t :: ts, _ =>
    obtain ⟨hmem, hseed, hall⟩ := tsMaxFold_spec ts t
    refine ⟨?_, ?_⟩
    · rcases hmem with h | h
      · rw [maxTimestamp, h]; exact List.mem_cons_self t ts
      · rw [maxTimestamp]; exact List.mem_cons_of_mem t h
    · intro u hu
      rcases List.mem_cons.mp hu with h | h
      · rw [maxTimestamp, h]; exact hseed
      · rw [maxTimestamp]; exact hall u h

/-- Converting the `ds` column preserves the row count. -/
theorem parseDates_length : ∀ (l : List String) (ts : List Timestamp),
    parseDates l = .ok ts → ts.length = l.length := by
  intro l
  induction l with
  | nil =>
    intro ts h
    simp only [parseDates] at h
    cases h
    rfl
  | cons s rest ih =>
    intro ts h
    simp only [parseDates] at h
    cases hp : parseDate s with
    | none => rw [hp] at h; cases h
    | some t =>
      rw [hp] at h
      cases hr : parseDates rest with
      | error e => rw [hr] at h; cases h
      | ok ts' =>
        rw [hr] at h
        simp only [Except.map] at h
        cases h
        simp [ih ts' hr]

/-! ### Concrete instances used by witnesses and counterexamples -/

/-- A concrete Prophet stand-in: fitting always succeeds, the future frame
is the history itself, and every prediction is zero with a zero band. -/
def trivialOracle : ProphetOracle :=
  ⟨fun _ _ => none, fun hist _ => hist, fun _ => (0, 0, 0)⟩

/-- A concrete environment: secret `"s3cret"`, `json.loads` always
failing, and the trivial Prophet stand-in. -/
def envC : Env := ⟨some "s3cret", fun _ => none, trivialOracle⟩

/-- The spec's own worked example arguments:
`ds = ["2021-01-01","2021-01-02","2021-01-03"], y = [1,2,3], periods = 2`. -/
def argsC : ForecastArgs :=
  ⟨some ["2021-01-01", "2021-01-02", "2021-01-03"], some [1, 2, 3], some 2⟩

/-! ### Claim theorems -/

/-- C7: every `tools/list` call returns the full registry unfiltered —
exactly one descriptor, named `forecast_time_series`, whose input schema
is an object with required `ds` (array of strings) and `y` (array of
numbers), an optional integer `periods` defaulting to 10, and
`additionalProperties` disallowed. -/
theorem c7_tools_list :
    (∀ (env : Env) (p : ToolCallParams),
        handle_request env (some "tools/list") p = .ok (.json handle_tools_list)) ∧
    ∃ t sch props dsSch ySch perSch,
      handle_tools_list.lookup "tools" = some (.arr [t]) ∧
      t.lookup "name" = some (.str "forecast_time_series") ∧
      t.lookup "inputSchema" = some sch ∧
      sch.lookup "type" = some (.str "object") ∧
      sch.lookup "required" = some (.arr [.str "ds", .str "y"]) ∧
      sch.lookup "additionalProperties" = some (.bool false) ∧
      sch.lookup "properties" = some props ∧
      props.lookup "ds" = some dsSch ∧
      dsSch.lookup "type" = some (.str "array") ∧
      dsSch.lookup "items" = some (.obj [("type", .str "string")]) ∧
      props.lookup "y" = some ySch ∧
      ySch.lookup "type" = some (.str "array") ∧
      ySch.lookup "items" = some (.obj [("type", .str "number")]) ∧
      props.lookup "periods" = some perSch ∧
      perSch.lookup "type" = some (.str "integer") ∧
      perSch.lookup "default" = some (.int 10) :=
  ⟨fun _ _ => rfl,
   _, _, _, _, _, _,
   rfl, rfl, rfl, rfl, rfl, rfl, rfl, rfl, rfl, rfl, rfl, rfl, rfl, rfl, rfl, rfl⟩

/-- C8: `initialize` is idempotent and input-independent — for every
environment and params it returns the identical fixed descriptor carrying
the protocol version, server name/version and the tools capability map,
with no input validation. -/
theorem c8_initialize_constant (env env2 : Env) (p q : ToolCallParams) :
    handle_request env (some "initialize") p = .ok (.json handle_initialize) ∧
    handle_request env (some "initialize") p = handle_request env2 (some "initialize") q ∧
    handle_initialize.lookup "protocolVersion" = some (.str "2024-11-05") ∧
    handle_initialize.lookup "serverInfo" =
      some (.obj [("name", .str "prophet_mcp"), ("version", .str "0.1.0")]) ∧
    handle_initialize.lookup "capabilities" = some (.obj [("tools", .obj [])]) :=
  ⟨rfl, rfl, rfl, rfl, rfl⟩

/-- C4: after JSON parsing and before any dispatch or notification
handling, authentication is checked — a missing or malformed Authorization
header yields 401 / `-32000` / the missing-header message; a well-formed
Bearer header with a wrong token yields 401 / `-32000` / the
invalid-token message; a correct token proceeds to the post-auth stage. -/
theorem c4_auth_check (env : Env) (req : HttpRequest) (data : McpRequest)
    (hparse : req.body = .ok data) :
    (req.authHeader = none →
      mcp_endpoint env req = .envelope 401 ⟨.error (-32000)
        "Unauthorized: Missing or invalid Authorization header", data.id⟩) ∧
    (∀ h, req.authHeader = some h → pyStartsWith h "Bearer " = false →
      mcp_endpoint env req = .envelope 401 ⟨.error (-32000)
        "Unauthorized: Missing or invalid Authorization header", data.id⟩) ∧
    (∀ h, req.authHeader = some h → pyStartsWith h "Bearer " = true →
      some (extractToken h) ≠ env.mcpToken →
      mcp_endpoint env req = .envelope 401 ⟨.error (-32000)
        "Unauthorized: Invalid MCP Auth token", data.id⟩) ∧
    (∀ h, req.authHeader = some h → pyStartsWith h "Bearer " = true →
      some (extractToken h) = env.mcpToken →
      mcp_endpoint env req = dispatch_stage env data) := by
  obtain ⟨ah, body⟩ := req
  dsimp only at hparse
  subst hparse
  have hempty : ∀ h : String, pyStartsWith h "Bearer " = true → (h == "") = false := by
    intro h hb
    cases hbe : h == "" with
    | false => rfl
    | true =>
      have : h = "" := by simpa using hbe
      subst this
      exact absurd hb (by decide)
  refine ⟨?_, ?_, ?_, ?_⟩
  · intro hnone
    subst hnone
    rfl
  · intro h hh hb
    subst hh
    simp [mcp_endpoint, hb]
  · intro h hh hb htok
    subst hh
    simp [mcp_endpoint, hb, hempty h hb, htok]
  · intro h hh hb htok
    subst hh
    simp [mcp_endpoint, hb, hempty h hb, htok]

/-- Witness for C4: concrete requests hitting all four auth outcomes
(no header, malformed header, wrong token, correct token). -/
theorem c4_auth_check_witness :
    mcp_endpoint envC ⟨none, .ok ⟨some "tools/list", ⟨none, none⟩, some (.num 1)⟩⟩ =
      .envelope 401 ⟨.error (-32000)
        "Unauthorized: Missing or invalid Authorization header", some (.num 1)⟩ ∧
    mcp_endpoint envC ⟨some "Token abc", .ok ⟨some "tools/list", ⟨none, none⟩, some (.num 1)⟩⟩ =
      .envelope 401 ⟨.error (-32000)
        "Unauthorized: Missing or invalid Authorization header", some (.num 1)⟩ ∧
    mcp_endpoint envC ⟨some "Bearer wrong", .ok ⟨some "tools/list", ⟨none, none⟩, some (.num 1)⟩⟩ =
      .envelope 401 ⟨.error (-32000)
        "Unauthorized: Invalid MCP Auth token", some (.num 1)⟩ ∧
    mcp_endpoint envC ⟨some "Bearer s3cret", .ok ⟨some "tools/list", ⟨none, none⟩, some (.num 1)⟩⟩ =
      dispatch_stage envC ⟨some "tools/list", ⟨none, none⟩, some (.num 1)⟩ :=
  ⟨(c4_auth_check envC _ _ rfl).1 rfl,
   (c4_auth_check envC _ _ rfl).2.1 "Token abc" rfl rfl,
   (c4_auth_check envC _ _ rfl).2.2.1 "Bearer wrong" rfl rfl (by decide),
   (c4_auth_check envC _ _ rfl).2.2.2 "Bearer s3cret" rfl rfl (by decide)⟩

/-- C2: every non-notification request (parsed body with a present,
non-null id) produces exactly one JSON-RPC response envelope, carrying the
request's id, whose body is by construction exactly one of result/error. -/
theorem c2_envelope_id (env : Env) (req : HttpRequest) (data : McpRequest) (i : RpcId)
    (hparse : req.body = .ok data) (hid : data.id = some i) :
    ∃ status rb, mcp_endpoint env req = .envelope status ⟨rb, some i⟩ := by
  obtain ⟨ah, body⟩ := req
  dsimp only at hparse
  subst hparse
  cases ah with
  | none =>
    exact ⟨401, .error (-32000) "Unauthorized: Missing or invalid Authorization header",
      by rw [← hid]; exact rfl⟩
  | some h =>
    by_cases hg : (h == "" || !(pyStartsWith h "Bearer ")) = true
    · exact ⟨401, .error (-32000) "Unauthorized: Missing or invalid Authorization header",
        by simp [mcp_endpoint, hg, hid]⟩
    · have hg' : (h == "" || !(pyStartsWith h "Bearer ")) = false := by
        simpa using hg
      by_cases htok : some (extractToken h) = env.mcpToken
      · cases hr : handle_request env data.method data.params with
        | ok r =>
          exact ⟨200, .result r,
            by simp [mcp_endpoint, hg', htok, dispatch_stage, hid, hr]⟩
        | error e =>
          by_cases hm : (data.method == some "tools/call") = true
          · exact ⟨200, .result (.tool ⟨some true,
              [.plain ("Internal tool error: " ++ e)]⟩),
              by simp [mcp_endpoint, hg', htok, dispatch_stage, hid, hr, hm]⟩
          · have hm' : (data.method == some "tools/call") = false := by simpa using hm
            exact ⟨200, .error (-32603) ("Internal error: " ++ e),
              by simp [mcp_endpoint, hg', htok, dispatch_stage, hid, hr, hm']⟩
      · exact ⟨401, .error (-32000) "Unauthorized: Invalid MCP Auth token",
          by simp [mcp_endpoint, hg', htok, hid]⟩

/-- Witness for C2: a concrete authenticated `initialize` request with
numeric id 7 yields an envelope with that id. -/
theorem c2_envelope_id_witness :
    ∃ status rb,
      mcp_endpoint envC ⟨some "Bearer s3cret",
        .ok ⟨some "initialize", ⟨none, none⟩, some (.num 7)⟩⟩ =
      .envelope status ⟨rb, some (.num 7)⟩ :=
  c2_envelope_id envC _ _ (.num 7) rfl rfl

/-- Counterexample for C3 as stated: a syntactically valid notification
(`id` null, method `notifications/initialized`) sent WITHOUT an
Authorization header is answered with a 401 JSON-RPC error envelope, not
with 204 and an empty body — auth runs before the notification
short-circuit. -/
theorem c3_counterexample :
    mcp_endpoint envC ⟨none, .ok ⟨some "notifications/initialized", ⟨none, none⟩, none⟩⟩ =
      .envelope 401 ⟨.error (-32000)
        "Unauthorized: Missing or invalid Authorization header", none⟩ ∧
    mcp_endpoint envC ⟨none, .ok ⟨some "notifications/initialized", ⟨none, none⟩, none⟩⟩ ≠
      .noContent :=
  ⟨rfl, fun h => HttpResponse.noConfusion h⟩

/-- C3 (amended): for every request that parses as JSON and passes
authentication, an absent/null id yields HTTP 204 with an empty body,
regardless of the method name; no JSON-RPC envelope is emitted for such a
notification, recognized or not. -/
theorem c3_notifications_no_content (env : Env) (req : HttpRequest) (data : McpRequest)
    (h : String) (hparse : req.body = .ok data) (hah : req.authHeader = some h)
    (hbearer : pyStartsWith h "Bearer " = true)
    (htok : some (extractToken h) = env.mcpToken)
    (hid : data.id = none) :
    mcp_endpoint env req = .noContent := by
  obtain ⟨ah, body⟩ := req
  dsimp only at hparse hah
  subst hparse
  subst hah
  have hempty : (h == "") = false := by
    cases hbe : h == "" with
    | false => rfl
    | true =>
      have : h = "" := by simpa using hbe
      subst this
      exact absurd hbearer (by decide)
  simp [mcp_endpoint, hempty, hbearer, htok, dispatch_stage, hid]

/-- Witness for C3 (amended): authenticated notifications — one with a
recognized `notifications/` method and one with an ordinary method name —
both get bare 204 No Content. -/
theorem c3_notifications_no_content_witness :
    mcp_endpoint envC ⟨some "Bearer s3cret",
      .ok ⟨some "notifications/initialized", ⟨none, none⟩, none⟩⟩ = .noContent ∧
    mcp_endpoint envC ⟨some "Bearer s3cret",
      .ok ⟨some "tools/list", ⟨none, none⟩, none⟩⟩ = .noContent :=
  ⟨c3_notifications_no_content envC _ _ "Bearer s3cret" rfl rfl (by decide) rfl rfl,
   c3_notifications_no_content envC _ _ "Bearer s3cret" rfl rfl (by decide) rfl rfl⟩

/-- C5: a non-notification request whose method is none of `initialize`,
`tools/list`, `tools/call` makes the router raise `Method not found:
<method>`, and the transport surfaces it through the generic
internal-error path as a protocol-level `-32603` error (not `-32601`) at
HTTP 200, with the method name interpolated into the message. -/
theorem c5_unknown_method (env : Env) (data : McpRequest) (i : RpcId)
    (hid : data.id = some i)
    (h1 : data.method ≠ some "initialize")
    (h2 : data.method ≠ some "tools/list")
    (h3 : data.method ≠ some "tools/call") :
    handle_request env data.method data.params =
      .error ("Method not found: " ++ pyStr data.method) ∧
    dispatch_stage env data = .envelope 200
      ⟨.error (-32603) ("Internal error: " ++ ("Method not found: " ++ pyStr data.method)),
        some i⟩ := by
  have hb1 : (data.method == some "initialize") = false := by
    simpa using h1
  have hb2 : (data.method == some "tools/list") = false := by
    simpa using h2
  have hb3 : (data.method == some "tools/call") = false := by
    simpa using h3
  have hreq : handle_request env data.method data.params =
      .error ("Method not found: " ++ pyStr data.method) := by
    simp [handle_request, hb1, hb2, hb3]
  exact ⟨hreq, by simp [dispatch_stage, hid, hreq, hb3]⟩

/-- Witness for C5: the unknown method `bogus/method` with id 3. -/
theorem c5_unknown_method_witness :
    handle_request envC (some "bogus/method") ⟨none, none⟩ =
      .error "Method not found: bogus/method" ∧
    dispatch_stage envC ⟨some "bogus/method", ⟨none, none⟩, some (.num 3)⟩ =
      .envelope 200 ⟨.error (-32603)
        ("Internal error: " ++ "Method not found: bogus/method"), some (.num 3)⟩ :=
  c5_unknown_method envC ⟨some "bogus/method", ⟨none, none⟩, some (.num 3)⟩ (.num 3)
    rfl (by decide) (by decide) (by decide)

/-- C6: a `tools/call` whose tool name matches no registered tool returns
— inside a successful JSON-RPC result, never as a protocol-level error —
the tool-result `isError:true` with text `Tool not found: <name>`. -/
theorem c6_tool_not_found (env : Env) (data : McpRequest) (i : RpcId) (n : String)
    (hmethod : data.method = some "tools/call") (hid : data.id = some i)
    (hname : data.params.name = some n) (hn : n ≠ "forecast_time_series")
    (hargs : data.params.arguments = none ∨ ∃ a, data.params.arguments = some (.obj a)) :
    handle_tool_call env data.params =
      .ok ⟨some true, [.plain ("Tool not found: " ++ n)]⟩ ∧
    dispatch_stage env data = .envelope 200
      ⟨.result (.tool ⟨some true, [.plain ("Tool not found: " ++ n)]⟩), some i⟩ := by
  have hbn : (some n == some "forecast_time_series") = false := by
    simpa using hn
  have hcall : handle_tool_call env data.params =
      .ok ⟨some true, [.plain ("Tool not found: " ++ n)]⟩ := by
    rcases hargs with ha | ⟨a, ha⟩ <;>
      simp [handle_tool_call, hname, ha, hbn, pyStr]
  refine ⟨hcall, ?_⟩
  simp [dispatch_stage, hid, hmethod, handle_request, hcall, Except.map]

/-- Witness for C6: the spec's own example `tools/call` with name `nope`. -/
theorem c6_tool_not_found_witness :
    handle_tool_call envC ⟨some "nope", none⟩ =
      .ok ⟨some true, [.plain "Tool not found: nope"]⟩ ∧
    dispatch_stage envC ⟨some "tools/call", ⟨some "nope", none⟩, some (.num 4)⟩ =
      .envelope 200 ⟨.result (.tool ⟨some true, [.plain "Tool not found: nope"]⟩),
        some (.num 4)⟩ :=
  c6_tool_not_found envC ⟨some "tools/call", ⟨some "nope", none⟩, some (.num 4)⟩
    (.num 4) "nope" rfl rfl rfl (by decide) (Or.inl rfl)

/-- C9: only the second space-delimited segment of the Authorization
header is compared with the secret — a header `Bearer <tok> <rest>` whose
second segment equals the secret authenticates, trailing segments being
ignored; and a header of exactly `"Bearer "` yields the empty string as
candidate token (no error), so it is rejected as an invalid token, not as
a malformed header. -/
theorem c9_token_second_segment (env : Env) (req : HttpRequest) (data : McpRequest)
    (h tok tok2 : String) (parts : List String)
    (hparse : req.body = .ok data) :
    (req.authHeader = some h → pyStartsWith h "Bearer " = true →
      pySplitSpace h = "Bearer" :: tok :: parts → env.mcpToken = some tok →
      mcp_endpoint env req = dispatch_stage env data) ∧
    extractToken "Bearer " = "" ∧
    (req.authHeader = some "Bearer " → env.mcpToken = some tok2 → tok2 ≠ "" →
      mcp_endpoint env req = .envelope 401
        ⟨.error (-32000) "Unauthorized: Invalid MCP Auth token", data.id⟩) := by
  obtain ⟨ah, body⟩ := req
  dsimp only at hparse
  subst hparse
  refine ⟨?_, rfl, ?_⟩
  · intro hah hb hsplit htok
    subst hah
    have hempty : (h == "") = false := by
      cases hbe : h == "" with
      | false => rfl
      | true =>
        have : h = "" := by simpa using hbe
        subst this
        exact absurd hb (by decide)
    have het : extractToken h = tok := by
      simp [extractToken, hsplit]
    have htok' : some (extractToken h) = env.mcpToken := by
      rw [het, htok]
    simp [mcp_endpoint, hempty, hb, htok']
  · intro hah htok hne
    subst hah
    have hb : pyStartsWith "Bearer " "Bearer " = true := by decide
    have hempty : (("Bearer " : String) == "") = false := by decide
    have htok' : some (extractToken "Bearer ") ≠ env.mcpToken := by
      rw [htok, show extractToken "Bearer " = "" from rfl]
      intro hc
      exact hne (Option.some.inj hc).symm
    simp [mcp_endpoint, hempty, hb, htok']

/-- Witness for C9: with secret `s3cret`, the header
`Bearer s3cret extra` authenticates (trailing content ignored), and the
header `Bearer ` is rejected as an invalid token. -/
theorem c9_token_second_segment_witness :
    mcp_endpoint envC ⟨some "Bearer s3cret extra",
      .ok ⟨some "tools/list", ⟨none, none⟩, some (.num 5)⟩⟩ =
      dispatch_stage envC ⟨some "tools/list", ⟨none, none⟩, some (.num 5)⟩ ∧
    extractToken "Bearer " = "" ∧
    mcp_endpoint envC ⟨some "Bearer ",
      .ok ⟨some "tools/list", ⟨none, none⟩, some (.num 5)⟩⟩ =
      .envelope 401 ⟨.error (-32000) "Unauthorized: Invalid MCP Auth token",
        some (.num 5)⟩ :=
  ⟨(c9_token_second_segment envC ⟨some "Bearer s3cret extra",
      .ok ⟨some "tools/list", ⟨none, none⟩, some (.num 5)⟩⟩
      ⟨some "tools/list", ⟨none, none⟩, some (.num 5)⟩
      "Bearer s3cret extra" "s3cret" "x" ["extra"] rfl).1 rfl (by decide) rfl rfl,
   (c9_token_second_segment envC ⟨some "Bearer s3cret extra",
      .ok ⟨some "tools/list", ⟨none, none⟩, some (.num 5)⟩⟩
      ⟨some "tools/list", ⟨none, none⟩, some (.num 5)⟩
      "Bearer s3cret extra" "s3cret" "x" ["extra"] rfl).2.1,
   (c9_token_second_segment envC ⟨some "Bearer ",
      .ok ⟨some "tools/list", ⟨none, none⟩, some (.num 5)⟩⟩
      ⟨some "tools/list", ⟨none, none⟩, some (.num 5)⟩
      "Bearer " "" "s3cret" [] rfl).2.2 rfl rfl (by decide)⟩

/-- C10: date conversion happens before the try block guarding fit and
predict, so a `tools/call` of `forecast_time_series` whose `ds` contains
an unparseable date string makes the adapter raise (it never returns a
structured `{"error": ...}` payload), and the transport surfaces the
failure as the tool-result `isError:true` with text
`Internal tool error: <detail>`. -/
theorem c10_unparseable_date_raises (env : Env) (data : McpRequest) (i : RpcId)
    (args : ForecastArgs) (dsL : List String) (yL : List Rat) (s msg : String)
    (hmethod : data.method = some "tools/call") (hid : data.id = some i)
    (hname : data.params.name = some "forecast_time_series")
    (hargs : data.params.arguments = some (.obj args))
    (hds : args.ds = some dsL) (hy : args.y = some yL)
    (hlen : dsL.length = yL.length)
    (hs : s ∈ dsL) (hbad : parseDate s = none)
    (herr : parseDates dsL = .error msg) :
    forecast_time_series env args = .error msg ∧
    dispatch_stage env data = .envelope 200
      ⟨.result (.tool ⟨some true, [.plain ("Internal tool error: " ++ msg)]⟩),
        some i⟩ := by
  have hfc : forecast_time_series env args = .error msg := by
    simp [forecast_time_series, hds, hy, hlen, herr]
  refine ⟨hfc, ?_⟩
  have hcall : handle_tool_call env data.params = .error msg := by
    simp [handle_tool_call, hname, hargs, hfc, Except.map]
  simp [dispatch_stage, hid, hmethod, handle_request, hcall, Except.map]

/-- Witness for C10: `ds = ["2021-01-01", "not-a-date"]` raises during
date conversion and surfaces as `Internal tool error: ...`. -/
theorem c10_unparseable_date_raises_witness :
    forecast_time_series envC ⟨some ["2021-01-01", "not-a-date"], some [1, 2], none⟩ =
      .error "Unknown datetime string format, unable to parse: not-a-date" ∧
    dispatch_stage envC ⟨some "tools/call",
        ⟨some "forecast_time_series",
          some (.obj ⟨some ["2021-01-01", "not-a-date"], some [1, 2], none⟩)⟩,
        some (.num 6)⟩ =
      .envelope 200 ⟨.result (.tool ⟨some true,
        [.plain ("Internal tool error: " ++
          "Unknown datetime string format, unable to parse: not-a-date")]⟩),
        some (.num 6)⟩ :=
  c10_unparseable_date_raises envC
    ⟨some "tools/call",
      ⟨some "forecast_time_series",
        some (.obj ⟨some ["2021-01-01", "not-a-date"], some [1, 2], none⟩)⟩,
      some (.num 6)⟩
    (.num 6)
    ⟨some ["2021-01-01", "not-a-date"], some [1, 2], none⟩
    ["2021-01-01", "not-a-date"] [1, 2] "not-a-date"
    "Unknown datetime string format, unable to parse: not-a-date"
    rfl rfl rfl rfl rfl rfl rfl (by decide) rfl rfl

/-- Counterexample for C1 as stated: on the spec's own example call
(`ds` three days of 2021-01, `y = [1,2,3]`, `periods = 2`) the forecast
succeeds, but the meta object of the produced JSON has NO `periods` key —
the requested horizon is stored under the key `f`. -/
theorem c1_counterexample :
    (forecast_time_series envC argsC).toOption.isSome = true ∧
    ((forecast_time_series envC argsC).toOption.bind
      (fun j => (j.lookup "meta").bind (fun m => m.lookup "periods"))) = none ∧
    ((forecast_time_series envC argsC).toOption.bind
      (fun j => (j.lookup "meta").bind (fun m => m.lookup "f"))) = some (.int 2) :=
  ⟨rfl, rfl, rfl⟩

/-- C1 (amended): for every successful `tools/call` of
`forecast_time_series` with history `ds`/`y` and requested horizon
`periods`, the JSON embedded in the result content stores the requested
horizon in `meta` under the key `f` (not `periods`); `meta.n_history`
equals the count of original historical rows, and `meta.start` /
`meta.end` are the minimum / maximum of the historical date range (not the
forecast range), formatted as `YYYY-MM-DDTHH:MM:SS`. -/
theorem c1_meta_fields (env : Env) (args : ForecastArgs) (dsL : List String)
    (yL : List Rat) (dates : List Timestamp) (p : Int)
    (hds : args.ds = some dsL) (hy : args.y = some yL) (hp : args.periods = some p)
    (hlen : dsL.length = yL.length) (hdates : parseDates dsL = .ok dates)
    (hne : dates ≠ []) (hfit : env.prophet.fit dates yL = none) :
    ∃ j, forecast_time_series env args = .ok j ∧
      (j.lookup "meta").bind (fun m => m.lookup "f") = some (.int p) ∧
      (j.lookup "meta").bind (fun m => m.lookup "n_history") =
        some (.int (dsL.length : Int)) ∧
      (j.lookup "meta").bind (fun m => m.lookup "start") =
        some (.str (fmtTimestamp (minTimestamp dates))) ∧
      (j.lookup "meta").bind (fun m => m.lookup "end") =
        some (.str (fmtTimestamp (maxTimestamp dates))) ∧
      minTimestamp dates ∈ dates ∧
      (∀ u ∈ dates, tsLe (minTimestamp dates) u = true) ∧
      maxTimestamp dates ∈ dates ∧
      (∀ u ∈ dates, tsLe u (maxTimestamp dates) = true) := by
  have hflen : dates.length = dsL.length := parseDates_length dsL dates hdates
  have heq : forecast_time_series env args = .ok (Json.obj [
      ("meta", Json.obj [
        ("f", .int p),
        ("n_history", .int (dates.length : Int)),
        ("start", .str (fmtTimestamp (minTimestamp dates))),
        ("end", .str (fmtTimestamp (maxTimestamp dates)))]),
      ("forecast", Json.arr
        ((env.prophet.futureFrame dates p).map (forecastRow env.prophet)))]) := by
    simp [forecast_time_series, hds, hy, hp, hlen, hdates, hfit]
  refine ⟨_, heq, rfl, ?_, rfl, rfl,
    (minTimestamp_spec dates hne).1, (minTimestamp_spec dates hne).2,
    (maxTimestamp_spec dates hne).1, (maxTimestamp_spec dates hne).2⟩
  rw [← hflen]
  exact rfl

/-- Witness for C1 (amended): the spec's example history with horizon 2. -/
theorem c1_meta_fields_witness :
    ∃ j, forecast_time_series envC argsC = .ok j ∧
      (j.lookup "meta").bind (fun m => m.lookup "f") = some (.int 2) ∧
      (j.lookup "meta").bind (fun m => m.lookup "n_history") = some (.int 3) ∧
      (j.lookup "meta").bind (fun m => m.lookup "start") =
        some (.str "2021-01-01T00:00:00") ∧
      (j.lookup "meta").bind (fun m => m.lookup "end") =
        some (.str "2021-01-03T00:00:00") ∧
      minTimestamp [⟨2021, 1, 1⟩, ⟨2021, 1, 2⟩, ⟨2021, 1, 3⟩] ∈
        ([⟨2021, 1, 1⟩, ⟨2021, 1, 2⟩, ⟨2021, 1, 3⟩] : List Timestamp) ∧
      (∀ u ∈ ([⟨2021, 1, 1⟩, ⟨2021, 1, 2⟩, ⟨2021, 1, 3⟩] : List Timestamp),
        tsLe (minTimestamp [⟨2021, 1, 1⟩, ⟨2021, 1, 2⟩, ⟨2021, 1, 3⟩]) u = true) ∧
      maxTimestamp [⟨2021, 1, 1⟩, ⟨2021, 1, 2⟩, ⟨2021, 1, 3⟩] ∈
        ([⟨2021, 1, 1⟩, ⟨2021, 1, 2⟩, ⟨2021, 1, 3⟩] : List Timestamp) ∧
      (∀ u ∈ ([⟨2021, 1, 1⟩, ⟨2021, 1, 2⟩, ⟨2021, 1, 3⟩] : List Timestamp),
        tsLe u (maxTimestamp [⟨2021, 1, 1⟩, ⟨2021, 1, 2⟩, ⟨2021, 1, 3⟩]) = true) :=
  c1_meta_fields envC argsC ["2021-01-01", "2021-01-02", "2021-01-03"] [1, 2, 3]
    [⟨2021, 1, 1⟩, ⟨2021, 1, 2⟩, ⟨2021, 1, 3⟩] 2
    rfl rfl rfl rfl rfl (by decide) rfl
